import Mathlib

/-!
Shallow embedding of `src/source/node_modules/scratch-render/src/TextBubbleSkin.js`.

Numbers that are JS floats in the source are modelled as rationals (ℚ);
the arithmetic the skin performs on them (add, mul, max, abs, min, div by
100, ceil) is exact on the inputs appearing in the source, so ℚ is a
faithful model. Canvas 2D drawing commands are recorded as an explicit
command list; the two angle arguments of `ctx.arc` are stored in units of
π (the source only ever passes 0, `Math.PI` and `Math.PI * 2`).

External collaborators (the text wrapper created by the renderer, and the
actual pixel measurement a canvas context performs) are parameters of a
`RenderEnv`; the skin's own state, including the measurement provider's
memoization cache and the GPU texture slot owned by the base `Skin`, is a
`SkinState`. Instrumentation counters (`reflowCount`, `renderCount`,
`uploadCount`, `deleteCount`, `wasAlteredCount`) count, respectively, the
calls to `_reflowLines`, `_renderTextBubble`, `_setTexture` (upload),
`gl.deleteTexture`, and `emitWasAltered`; they model the observable
effects the specification talks about and change nothing else.
-/

namespace TextBubble

/-- the style record of a text bubble, mirroring `DEFAULT_BUBBLE_STYLE`'s shape. -/
structure BubbleStyle where
  maxLineWidth : ℚ
  minWidth : ℚ
  strokeWidth : ℚ
  padding : ℚ
  cornerRadius : ℚ
  tailHeight : ℚ
  font : String
  fontSize : ℚ
  fontHeightRatio : ℚ
  lineHeight : ℚ
  bubbleFill : String
  bubbleStroke : String
  textFill : String
deriving DecidableEq

/-- the `DEFAULT_BUBBLE_STYLE` constant of the source. -/
def DEFAULT_BUBBLE_STYLE : BubbleStyle :=
  { maxLineWidth := 170
    minWidth := 50
    strokeWidth := 4
    padding := 10
    cornerRadius := 16
    tailHeight := 12
    font := "Helvetica"
    fontSize := 14
    fontHeightRatio := 9/10
    lineHeight := 16
    bubbleFill := "white"
    bubbleStroke := "rgba(0, 0, 0, 0.15)"
    textFill := "#575E75" }

/-- the `MAX_SCALE` constant of the source. -/
def MAX_SCALE : ℚ := 10

/-- a set of style overrides passed to `setStyle`: each field that is
present in the JS argument object is `some`, each absent field is `none`. -/
structure StyleUpdate where
  maxLineWidth : Option ℚ := none
  minWidth : Option ℚ := none
  strokeWidth : Option ℚ := none
  padding : Option ℚ := none
  cornerRadius : Option ℚ := none
  tailHeight : Option ℚ := none
  font : Option String := none
  fontSize : Option ℚ := none
  fontHeightRatio : Option ℚ := none
  lineHeight : Option ℚ := none
  bubbleFill : Option String := none
  bubbleStroke : Option String := none
  textFill : Option String := none
deriving DecidableEq

/-- the shallow merge `Object.assign({}, old, newStyle)` performed by
`setStyle`: a key present in the update wins, a missing key keeps the old
value. -/
def mergeStyle (old : BubbleStyle) (p : StyleUpdate) : BubbleStyle :=
  { maxLineWidth := p.maxLineWidth.getD old.maxLineWidth
    minWidth := p.minWidth.getD old.minWidth
    strokeWidth := p.strokeWidth.getD old.strokeWidth
    padding := p.padding.getD old.padding
    cornerRadius := p.cornerRadius.getD old.cornerRadius
    tailHeight := p.tailHeight.getD old.tailHeight
    font := p.font.getD old.font
    fontSize := p.fontSize.getD old.fontSize
    fontHeightRatio := p.fontHeightRatio.getD old.fontHeightRatio
    lineHeight := p.lineHeight.getD old.lineHeight
    bubbleFill := p.bubbleFill.getD old.bubbleFill
    bubbleStroke := p.bubbleStroke.getD old.bubbleStroke
    textFill := p.textFill.getD old.textFill }

/-- the external collaborators of the skin: the renderer's text wrapper
(`textWrapper.wrapText(maxLineWidth, text)`) and the raw width measurement
the canvas context performs for a given font and line of text. -/
structure RenderEnv where
  wrapText : ℚ → String → List String
  measure : String → String → ℚ

/-- a canvas-2D drawing command, as issued by `_renderTextBubble`. The two
angle arguments of `arc` are stored in units of π. -/
inductive CanvasCmd where
  | setTransform (a b c d e f : ℚ)
  | clearRect (x y w h : ℚ)
  | scale (x y : ℚ)
  | translate (x y : ℚ)
  | save
  | restore
  | beginPath
  | moveTo (x y : ℚ)
  | arcTo (x1 y1 x2 y2 r : ℚ)
  | bezierCurveTo (c1x c1y c2x c2y x y : ℚ)
  | closePath
  | arc (x y r startPi endPi : ℚ)
  | setFillStyle (c : String)
  | setStrokeStyle (c : String)
  | setLineWidth (w : ℚ)
  | stroke
  | fill
  | fillText (t : String) (x y : ℚ)
deriving DecidableEq

/-- the mutable state of one `TextBubbleSkin`, together with the
instrumentation counters described in the file header. `texture = none`
models `this._texture === null`; `mpCache` is the measurement provider's
memoized text-width cache; `lastRenderCmds` records the drawing commands of
the most recent `_renderTextBubble` call. -/
structure SkinState where
  canvasWidth : ℤ
  canvasHeight : ℤ
  canvasFont : String
  canvasPresent : Bool
  size0 : ℚ
  size1 : ℚ
  renderedScale : ℚ
  lines : List String
  textAreaWidth : ℚ
  textAreaHeight : ℚ
  bubbleType : String
  pointsLeft : Bool
  text : String
  textDirty : Bool
  textureDirty : Bool
  style : BubbleStyle
  mpCache : List (String × ℚ)
  texture : Option Nat
  nextTextureId : Nat
  lastRenderCmds : List CanvasCmd
  wasAlteredCount : Nat
  reflowCount : Nat
  renderCount : Nat
  uploadCount : Nat
  deleteCount : Nat
  disposed : Bool
deriving DecidableEq

/-- Modelled from the spec: `CanvasMeasurementProvider.measureText` (the
file `util/canvas-measurement-provider.js` is not part of the sources);
per the spec it "measures the pixel width of a line of text under the
current font configuration" and memoizes widths by text in a cache that
`clearCache` empties. -/
def measureText (e : RenderEnv) (font : String) (cache : List (String × ℚ))
    (line : String) : ℚ × List (String × ℚ) :=
  match cache.lookup line with
  | some w => (w, cache)
  | none => (e.measure font line, (line, e.measure font line) :: cache)

/-- the sequence of widths `measureText` yields for a list of lines,
threading the memoization cache through the calls in order. -/
def measuredWidths (e : RenderEnv) (font : String) :
    List (String × ℚ) → List String → List ℚ
  | _, [] => []
  | cache, l :: ls =>
    (measureText e font cache l).1 ::
      measuredWidths e font (measureText e font cache l).2 ls

/-- the `for (const line of this._lines)` loop of `_reflowLines`:
`longestLineWidth = Math.max(longestLineWidth, measureText(line))`,
threading the measurement cache. -/
def reflowLoop (e : RenderEnv) (font : String) :
    ℚ → List (String × ℚ) → List String → ℚ × List (String × ℚ)
  | longest, cache, [] => (longest, cache)
  | longest, cache, l :: ls =>
    reflowLoop e font (max longest (measureText e font cache l).1)
      (measureText e font cache l).2 ls

/-- the `_reflowLines` method: wrap the text, measure the longest line,
derive the padded text area and the total size, clear the text-dirty
flag. -/
def reflowLines (e : RenderEnv) (s : SkinState) : SkinState :=
  let lines := e.wrapText s.style.maxLineWidth s.text
  let r := reflowLoop e s.canvasFont 0 s.mpCache lines
  let paddedWidth := max r.1 s.style.minWidth + s.style.padding * 2
  let paddedHeight := s.style.lineHeight * (lines.length : ℚ) + s.style.padding * 2
  { s with
    lines := lines
    mpCache := r.2
    textAreaWidth := paddedWidth
    textAreaHeight := paddedHeight
    size0 := paddedWidth + s.style.strokeWidth
    size1 := paddedHeight + s.style.strokeWidth + s.style.tailHeight
    textDirty := false
    reflowCount := s.reflowCount + 1 }

/-- the `_restyleCanvas` font assignment:
`ctx.font = ` a string interpolating the font size and family. -/
def fontString (st : BubbleStyle) : String :=
  let fs := toString st.fontSize
  let f := st.font
  s!"{fs}px {f}, sans-serif"

/-- the tail construction commands of `_renderTextBubble`: one swoopy
bezier-arc-bezier shape for a `say` bubble, a half circle plus two
detached full circles for anything else. -/
def tailCmds (bubbleType : String) : List CanvasCmd :=
  if bubbleType = "say" then
    [CanvasCmd.bezierCurveTo 0 4 4 8 4 10,
     CanvasCmd.arcTo 4 12 2 12 2,
     CanvasCmd.bezierCurveTo (-1) 12 (-11) 8 (-16) 0,
     CanvasCmd.closePath]
  else
    [CanvasCmd.arc (-16) 0 4 0 1,
     CanvasCmd.closePath,
     CanvasCmd.moveTo (-7) (29/4),
     CanvasCmd.arc (-37/4) (29/4) (9/4) 0 2,
     CanvasCmd.moveTo 0 (19/2),
     CanvasCmd.arc (-3/2) (19/2) (3/2) 0 2]

/-- the text drawing loop of `_renderTextBubble`: each line left-aligned
at x = padding, baseline y = padding + lineHeight * lineNumber +
fontHeightRatio * fontSize. -/
def textCmds (st : BubbleStyle) (lines : List String) : List CanvasCmd :=
  lines.enum.map fun p =>
    CanvasCmd.fillText p.2 st.padding
      (st.padding + st.lineHeight * (p.1 : ℚ) + st.fontHeightRatio * st.fontSize)

/-- the full command sequence `_renderTextBubble` issues on the canvas
context, in source order: reset transform, clear, scale, half-stroke
translate, optional horizontal flip, rounded-rectangle body path, tail,
fill and stroke configuration, stroke then fill, unflip, then the text
lines. -/
def renderCmds (st : BubbleStyle) (paddedWidth paddedHeight : ℚ)
    (pointsLeft : Bool) (bubbleType : String) (lines : List String)
    (cw ch : ℤ) (scale : ℚ) : List CanvasCmd :=
  [CanvasCmd.setTransform 1 0 0 1 0 0,
   CanvasCmd.clearRect 0 0 (cw : ℚ) (ch : ℚ),
   CanvasCmd.scale scale scale,
   CanvasCmd.translate (st.strokeWidth * (1/2)) (st.strokeWidth * (1/2)),
   CanvasCmd.save] ++
  (if pointsLeft then
    [CanvasCmd.scale (-1) 1, CanvasCmd.translate (-paddedWidth) 0]
  else []) ++
  [CanvasCmd.beginPath,
   CanvasCmd.moveTo st.cornerRadius paddedHeight,
   CanvasCmd.arcTo 0 paddedHeight 0 (paddedHeight - st.cornerRadius) st.cornerRadius,
   CanvasCmd.arcTo 0 0 paddedWidth 0 st.cornerRadius,
   CanvasCmd.arcTo paddedWidth 0 paddedWidth paddedHeight st.cornerRadius,
   CanvasCmd.arcTo paddedWidth paddedHeight (paddedWidth - st.cornerRadius) paddedHeight st.cornerRadius,
   CanvasCmd.save,
   CanvasCmd.translate (paddedWidth - st.cornerRadius) paddedHeight] ++
  tailCmds bubbleType ++
  [CanvasCmd.restore,
   CanvasCmd.setFillStyle st.bubbleFill,
   CanvasCmd.setStrokeStyle st.bubbleStroke,
   CanvasCmd.setLineWidth st.strokeWidth,
   CanvasCmd.stroke,
   CanvasCmd.fill,
   CanvasCmd.restore,
   CanvasCmd.setFillStyle st.textFill] ++
  textCmds st lines

/-- the `_renderTextBubble(scale)` method: reflow first if the text is
dirty, resize the canvas to the ceiling of the scaled total size, restyle
the canvas font, issue the drawing commands, record the rendered scale. -/
def renderTextBubble (e : RenderEnv) (s : SkinState) (scale : ℚ) : SkinState :=
  let sL := if s.textDirty then reflowLines e s else s
  let cw : ℤ := ⌈sL.size0 * scale⌉
  let ch : ℤ := ⌈sL.size1 * scale⌉
  { sL with
    canvasWidth := cw
    canvasHeight := ch
    canvasFont := fontString sL.style
    lastRenderCmds :=
      renderCmds sL.style sL.textAreaWidth sL.textAreaHeight sL.pointsLeft
        sL.bubbleType sL.lines cw ch scale
    renderedScale := scale
    renderCount := sL.renderCount + 1 }

/-- the `size` getter: reflow if the text is dirty, then return
`this._size`. The returned pair is the value of the size array. -/
def sizeGet (e : RenderEnv) (s : SkinState) : SkinState × (ℚ × ℚ) :=
  let s' := if s.textDirty then reflowLines e s else s
  (s', (s'.size0, s'.size1))

/-- the `setTextBubble(type, text, pointsLeft)` method. -/
def setTextBubble (s : SkinState) (type text : String) (pointsLeft : Bool) :
    SkinState :=
  { s with
    text := text
    bubbleType := type
    pointsLeft := pointsLeft
    textDirty := true
    textureDirty := true
    wasAlteredCount := s.wasAlteredCount + 1 }

/-- the `setStyle(newStyle)` method: shallow-merge the update over the
current style, clear the measurement cache, restyle the canvas, set both
dirty flags, emit the was-altered notification. -/
def setStyle (s : SkinState) (p : StyleUpdate) : SkinState :=
  let st := mergeStyle s.style p
  { s with
    style := st
    mpCache := []
    canvasFont := fontString st
    textDirty := true
    textureDirty := true
    wasAlteredCount := s.wasAlteredCount + 1 }

/-- the scale quantization at the top of `getTexture`:
`scaleMax = scale ? max(|scale[0]|, |scale[1]|) : 100` and
`requestedScale = min(MAX_SCALE, scaleMax / 100)`. -/
def quantizedScale (sc : Option (ℚ × ℚ)) : ℚ :=
  let scaleMax := match sc with
    | some p => max |p.1| |p.2|
    | none => 100
  min MAX_SCALE (scaleMax / 100)

/-- the `getTexture(scale)` method: if the texture is dirty or the
recorded rendered scale differs from the requested quantized scale,
re-render, clear the texture-dirty flag, create the GPU texture on first
use (`this._texture === null`), and upload; finally return the texture
slot. -/
def getTexture (e : RenderEnv) (s : SkinState) (sc : Option (ℚ × ℚ)) :
    SkinState × Option Nat :=
  let requestedScale := quantizedScale sc
  let s' :=
    if s.textureDirty = true ∨ s.renderedScale ≠ requestedScale then
      let s1 := renderTextBubble e s requestedScale
      let s2 := { s1 with textureDirty := false }
      let s3 :=
        if s2.texture = none then
          { s2 with
            texture := some s2.nextTextureId
            nextTextureId := s2.nextTextureId + 1 }
        else s2
      { s3 with uploadCount := s3.uploadCount + 1 }
    else s
  (s', s'.texture)

/-- the `dispose()` method: delete the GPU texture if one is present and
null the slot, drop the canvas, then the base-class disposal (modelled
from the spec: the base `Skin` is not part of the sources; per the spec
disposal "forbids further use", recorded by the `disposed` flag). -/
def dispose (s : SkinState) : SkinState :=
  let s1 :=
    if s.texture.isSome then
      { s with deleteCount := s.deleteCount + 1, texture := none }
    else s
  { s1 with canvasPresent := false, disposed := true }

/-- the state the constructor establishes: empty bubble, both dirty flags
set, default style, canvas font already styled, no texture yet (the base
`Skin` constructor nulls the texture slot, modelled from the spec:
"lazily create the GPU texture resource on first use"). The canvas keeps
the HTML default 300 by 150 size until the first render. -/
def initialSkinState : SkinState :=
  { canvasWidth := 300
    canvasHeight := 150
    canvasFont := fontString DEFAULT_BUBBLE_STYLE
    canvasPresent := true
    size0 := 0
    size1 := 0
    renderedScale := 0
    lines := []
    textAreaWidth := 0
    textAreaHeight := 0
    bubbleType := ""
    pointsLeft := false
    text := ""
    textDirty := true
    textureDirty := true
    style := DEFAULT_BUBBLE_STYLE
    mpCache := []
    texture := none
    nextTextureId := 0
    lastRenderCmds := []
    wasAlteredCount := 0
    reflowCount := 0
    renderCount := 0
    uploadCount := 0
    deleteCount := 0
    disposed := false }

/-- a concrete environment used to evaluate the development on explicit
inputs: the wrapper puts the whole text on one line and a line measures
its character count in pixels. -/
def sampleEnv : RenderEnv :=
  { wrapText := fun _ t => [t]
    measure := fun _ t => (t.length : ℚ) }

end TextBubble

namespace TextBubble

section Helpers

variable (e : RenderEnv) (s : SkinState) (sc : ℚ)

lemma reflow_renderCount : (reflowLines e s).renderCount = s.renderCount := rfl

lemma reflow_reflowCount : (reflowLines e s).reflowCount = s.reflowCount + 1 := rfl

lemma reflow_textDirty : (reflowLines e s).textDirty = false := rfl

lemma reflow_textureDirty : (reflowLines e s).textureDirty = s.textureDirty := rfl

lemma reflow_texture : (reflowLines e s).texture = s.texture := rfl

lemma reflow_nextTextureId : (reflowLines e s).nextTextureId = s.nextTextureId := rfl

lemma reflow_uploadCount : (reflowLines e s).uploadCount = s.uploadCount := rfl

lemma reflow_wasAlteredCount : (reflowLines e s).wasAlteredCount = s.wasAlteredCount := rfl

lemma reflow_style : (reflowLines e s).style = s.style := rfl

lemma reflow_renderedScale : (reflowLines e s).renderedScale = s.renderedScale := rfl

lemma render_renderCount : (renderTextBubble e s sc).renderCount = s.renderCount + 1 := by
  unfold renderTextBubble
  cases h : s.textDirty <;> simp [h, reflow_renderCount]

lemma render_renderedScale : (renderTextBubble e s sc).renderedScale = sc := by
  unfold renderTextBubble
  cases h : s.textDirty <;> simp [h]

lemma render_textureDirty : (renderTextBubble e s sc).textureDirty = s.textureDirty := by
  unfold renderTextBubble
  cases h : s.textDirty <;> simp [h, reflow_textureDirty]

lemma render_texture : (renderTextBubble e s sc).texture = s.texture := by
  unfold renderTextBubble
  cases h : s.textDirty <;> simp [h, reflow_texture]

lemma render_nextTextureId : (renderTextBubble e s sc).nextTextureId = s.nextTextureId := by
  unfold renderTextBubble
  cases h : s.textDirty <;> simp [h, reflow_nextTextureId]

lemma render_uploadCount : (renderTextBubble e s sc).uploadCount = s.uploadCount := by
  unfold renderTextBubble
  cases h : s.textDirty <;> simp [h, reflow_uploadCount]

lemma render_wasAlteredCount : (renderTextBubble e s sc).wasAlteredCount = s.wasAlteredCount := by
  unfold renderTextBubble
  cases h : s.textDirty <;> simp [h, reflow_wasAlteredCount]

lemma render_reflowCount :
    (renderTextBubble e s sc).reflowCount =
      if s.textDirty then s.reflowCount + 1 else s.reflowCount := by
  unfold renderTextBubble
  cases h : s.textDirty <;> simp [h, reflow_reflowCount]

lemma render_canvasWidth :
    (renderTextBubble e s sc).canvasWidth = ⌈(sizeGet e s).2.1 * sc⌉ := by
  unfold renderTextBubble sizeGet
  cases h : s.textDirty <;> simp [h]

lemma render_canvasHeight :
    (renderTextBubble e s sc).canvasHeight = ⌈(sizeGet e s).2.2 * sc⌉ := by
  unfold renderTextBubble sizeGet
  cases h : s.textDirty <;> simp [h]

lemma render_canvasFont :
    (renderTextBubble e s sc).canvasFont = fontString s.style := by
  unfold renderTextBubble
  cases h : s.textDirty <;> simp [h, reflow_style]

end Helpers

end TextBubble

namespace TextBubble

section MoreHelpers

variable (e : RenderEnv) (s : SkinState) (sc : Option (ℚ × ℚ))

lemma getTexture_snd : (getTexture e s sc).2 = (getTexture e s sc).1.texture := rfl

lemma getTexture_wasAlteredCount :
    (getTexture e s sc).1.wasAlteredCount = s.wasAlteredCount := by
  unfold getTexture
  dsimp only
  split
  · split <;> simp [render_wasAlteredCount]
  · rfl

lemma getTexture_textureDirty :
    (getTexture e s sc).1.textureDirty = false := by
  unfold getTexture
  dsimp only
  split
  · split <;> rfl
  · next h =>
    push_neg at h
    simpa using h.1

lemma getTexture_renderedScale :
    (getTexture e s sc).1.renderedScale = quantizedScale sc := by
  unfold getTexture
  dsimp only
  split
  · split <;> simp [render_renderedScale]
  · next h =>
    push_neg at h
    exact h.2

lemma getTexture_noop (h1 : s.textureDirty = false)
    (h2 : s.renderedScale = quantizedScale sc) :
    getTexture e s sc = (s, s.texture) := by
  unfold getTexture
  simp [h1, h2]

end MoreHelpers

/-- C4: calling the size getter twice with no intervening mutation returns
an identical result and leaves the state of the second call untouched (the
layout runs at most once across the two calls: once if the text was dirty,
not at all otherwise), and the first call always leaves the layout-dirty
flag cleared. -/
theorem size_idempotent (e : RenderEnv) (s : SkinState) :
    (sizeGet e (sizeGet e s).1).2 = (sizeGet e s).2 ∧
    (sizeGet e (sizeGet e s).1).1 = (sizeGet e s).1 ∧
    (sizeGet e s).1.textDirty = false ∧
    (sizeGet e s).1.reflowCount =
      (if s.textDirty then s.reflowCount + 1 else s.reflowCount) ∧
    (sizeGet e (sizeGet e s).1).1.reflowCount = (sizeGet e s).1.reflowCount := by
  cases h : s.textDirty <;>
    simp [sizeGet, h, reflow_textDirty, reflow_reflowCount]

/-- C6: the was-altered notification fires exactly once on every call to
`setTextBubble` and every call to `setStyle`, for all argument values
(including ones equal to the current state), and never fires during the
lazy `size` or `getTexture` recomputations. -/
theorem emit_on_mutation_only (e : RenderEnv) (s : SkinState) (ty tx : String)
    (pl : Bool) (p : StyleUpdate) (sc : Option (ℚ × ℚ)) :
    (setTextBubble s ty tx pl).wasAlteredCount = s.wasAlteredCount + 1 ∧
    (setStyle s p).wasAlteredCount = s.wasAlteredCount + 1 ∧
    (sizeGet e s).1.wasAlteredCount = s.wasAlteredCount ∧
    (getTexture e s sc).1.wasAlteredCount = s.wasAlteredCount := by
  refine ⟨rfl, rfl, ?_, getTexture_wasAlteredCount e s sc⟩
  cases h : s.textDirty <;> simp [sizeGet, h, reflow_wasAlteredCount]

/-- C8: `setTextBubble` replaces the bubble type, the text and the
pointing direction, sets both dirty flags, emits the was-altered
notification once, and leaves the measurement cache and the style
unchanged. -/
theorem setTextBubble_replaces_content (s : SkinState) (ty tx : String)
    (pl : Bool) :
    (setTextBubble s ty tx pl).bubbleType = ty ∧
    (setTextBubble s ty tx pl).text = tx ∧
    (setTextBubble s ty tx pl).pointsLeft = pl ∧
    (setTextBubble s ty tx pl).textDirty = true ∧
    (setTextBubble s ty tx pl).textureDirty = true ∧
    (setTextBubble s ty tx pl).wasAlteredCount = s.wasAlteredCount + 1 ∧
    (setTextBubble s ty tx pl).mpCache = s.mpCache ∧
    (setTextBubble s ty tx pl).style = s.style :=
  ⟨rfl, rfl, rfl, rfl, rfl, rfl, rfl, rfl⟩

/-- C10: `dispose` deletes the GPU texture only when one is present and
nulls the slot, so a second `dispose` never performs a second delete: the
delete counter moves at most once no matter how often `dispose` runs. -/
theorem dispose_deletes_at_most_once (s : SkinState) :
    (dispose s).texture = none ∧
    (dispose s).deleteCount =
      (if s.texture.isSome then s.deleteCount + 1 else s.deleteCount) ∧
    (dispose (dispose s)).texture = none ∧
    (dispose (dispose s)).deleteCount = (dispose s).deleteCount := by
  cases h : s.texture <;> simp [dispose, h]

end TextBubble

namespace TextBubble

lemma getTexture_congr (e : RenderEnv) (s : SkinState) {a b : Option (ℚ × ℚ)}
    (h : quantizedScale a = quantizedScale b) :
    getTexture e s a = getTexture e s b := by
  unfold getTexture
  rw [h]

/-- C2: the quantized scale equals `min(10, max(|x|, |y|) / 100)`, with a
missing scale vector defaulting to 100 percent (a quantized scale of 1);
the vectors (500, 1), (1, 500) and (500, 500) all resolve to a requested
scale of 5 and yield identical `getTexture` results, while (2000, 2000)
saturates at 10, and after any `getTexture` call the recorded rendered
scale is the quantized scale of its argument. -/
theorem getTexture_quantizes_scale (e : RenderEnv) (s : SkinState) (x y : ℚ) :
    quantizedScale (some (x, y)) = min 10 (max |x| |y| / 100) ∧
    quantizedScale none = 1 ∧
    quantizedScale (some (500, 1)) = 5 ∧
    quantizedScale (some (1, 500)) = 5 ∧
    quantizedScale (some (500, 500)) = 5 ∧
    quantizedScale (some (2000, 2000)) = 10 ∧
    getTexture e s (some (500, 1)) = getTexture e s (some (1, 500)) ∧
    getTexture e s (some (500, 1)) = getTexture e s (some (500, 500)) ∧
    (getTexture e s (some (x, y))).1.renderedScale = min 10 (max |x| |y| / 100) ∧
    (getTexture e s none).1.renderedScale = 1 := by
  have h1 : quantizedScale (some (500, 1)) = 5 := by
    norm_num [quantizedScale, MAX_SCALE]
  have h2 : quantizedScale (some (1, 500)) = 5 := by
    norm_num [quantizedScale, MAX_SCALE]
  have h3 : quantizedScale (some (500, 500)) = 5 := by
    norm_num [quantizedScale, MAX_SCALE]
  have h4 : quantizedScale (some (2000, 2000)) = 10 := by
    norm_num [quantizedScale, MAX_SCALE]
  have hn : quantizedScale none = 1 := by
    norm_num [quantizedScale, MAX_SCALE]
  have hxy : quantizedScale (some (x, y)) = min 10 (max |x| |y| / 100) := by
    simp [quantizedScale, MAX_SCALE]
  refine ⟨hxy, hn, h1, h2, h3, h4, ?_, ?_, ?_, ?_⟩
  · exact getTexture_congr e s (h1.trans h2.symm)
  · exact getTexture_congr e s (h1.trans h3.symm)
  · rw [getTexture_renderedScale, hxy]
  · rw [getTexture_renderedScale, hn]

/-- C1: `getTexture` rasterizes and uploads exactly when the texture-dirty
flag is set or the recorded rendered scale differs from the requested
quantized scale; a second call at the same argument performs no further
rasterize or upload, returns the same texture handle, and the GPU texture
slot is allocated at most once (exactly on a first use that renders). -/
theorem getTexture_caches (e : RenderEnv) (s : SkinState) (sc : Option (ℚ × ℚ)) :
    ((getTexture e s sc).1.renderCount =
      if s.textureDirty = true ∨ s.renderedScale ≠ quantizedScale sc
      then s.renderCount + 1 else s.renderCount) ∧
    ((getTexture e s sc).1.uploadCount =
      if s.textureDirty = true ∨ s.renderedScale ≠ quantizedScale sc
      then s.uploadCount + 1 else s.uploadCount) ∧
    (getTexture e (getTexture e s sc).1 sc).1.renderCount =
      (getTexture e s sc).1.renderCount ∧
    (getTexture e (getTexture e s sc).1 sc).1.uploadCount =
      (getTexture e s sc).1.uploadCount ∧
    (getTexture e (getTexture e s sc).1 sc).2 = (getTexture e s sc).2 ∧
    ((getTexture e s sc).1.nextTextureId =
      if s.texture = none ∧
          (s.textureDirty = true ∨ s.renderedScale ≠ quantizedScale sc)
      then s.nextTextureId + 1 else s.nextTextureId) ∧
    (getTexture e (getTexture e s sc).1 sc).1.nextTextureId =
      (getTexture e s sc).1.nextTextureId := by
  have hsecond : getTexture e (getTexture e s sc).1 sc =
      ((getTexture e s sc).1, (getTexture e s sc).1.texture) :=
    getTexture_noop e (getTexture e s sc).1 sc (getTexture_textureDirty e s sc)
      (getTexture_renderedScale e s sc)
  refine ⟨?_, ?_, by rw [hsecond], by rw [hsecond], ?_, ?_, by rw [hsecond]⟩
  · by_cases hg : s.textureDirty = true ∨ s.renderedScale ≠ quantizedScale sc
    · rw [if_pos hg]
      unfold getTexture
      dsimp only
      rw [if_pos hg]
      split <;> simp [render_renderCount]
    · rw [if_neg hg]
      unfold getTexture
      dsimp only
      rw [if_neg hg]
  · by_cases hg : s.textureDirty = true ∨ s.renderedScale ≠ quantizedScale sc
    · rw [if_pos hg]
      unfold getTexture
      dsimp only
      rw [if_pos hg]
      split <;> simp [render_uploadCount]
    · rw [if_neg hg]
      unfold getTexture
      dsimp only
      rw [if_neg hg]
  · rw [hsecond, getTexture_snd]
  · by_cases hg : s.textureDirty = true ∨ s.renderedScale ≠ quantizedScale sc
    · simp only [hg, and_true]
      unfold getTexture
      dsimp only
      rw [if_pos hg]
      by_cases ht : s.texture = none
      · simp [render_texture, ht, render_nextTextureId]
      · simp [render_texture, ht, render_nextTextureId]
    · simp only [hg, and_false, if_false]
      unfold getTexture
      dsimp only
      rw [if_neg hg]

end TextBubble

namespace TextBubble

/-- C9: the rasterization always performs its work when invoked — the
render counter advances and the texture-dirty flag is neither read nor
written (the outcome is the same for either flag value, which stays
unchanged) — recomputing the layout first exactly when the layout-dirty
flag is set, resizing the canvas to the ceiling of the current total size
times the scale, re-applying the font configuration, and recording the
rendered scale on completion. -/
theorem renderTextBubble_always_works (e : RenderEnv) (s : SkinState)
    (scale : ℚ) :
    (renderTextBubble e s scale).renderCount = s.renderCount + 1 ∧
    (renderTextBubble e s scale).textureDirty = s.textureDirty ∧
    (renderTextBubble e s scale).reflowCount =
      (if s.textDirty then s.reflowCount + 1 else s.reflowCount) ∧
    (renderTextBubble e s scale).canvasWidth = ⌈(sizeGet e s).2.1 * scale⌉ ∧
    (renderTextBubble e s scale).canvasHeight = ⌈(sizeGet e s).2.2 * scale⌉ ∧
    (renderTextBubble e s scale).canvasFont = fontString s.style ∧
    (renderTextBubble e s scale).renderedScale = scale :=
  ⟨render_renderCount e s scale, render_textureDirty e s scale,
   render_reflowCount e s scale, render_canvasWidth e s scale,
   render_canvasHeight e s scale, render_canvasFont e s scale,
   render_renderedScale e s scale⟩

/-- C5: `setStyle` replaces the style by the shallow merge of the update
over the current style — per key, the update wins when present and the old
value is kept when absent — clears the measurement cache, re-applies the
font configuration, and sets both dirty flags; consequently a `getTexture`
after a style change re-rasterizes and re-uploads even at an unchanged
quantized scale. -/
lemma getTexture_dirty_render (e : RenderEnv) (s : SkinState)
    (sc : Option (ℚ × ℚ)) (h : s.textureDirty = true) :
    (getTexture e s sc).1.renderCount = s.renderCount + 1 := by
  unfold getTexture
  dsimp only
  rw [if_pos (Or.inl h)]
  split <;> simp [render_renderCount]

lemma getTexture_dirty_upload (e : RenderEnv) (s : SkinState)
    (sc : Option (ℚ × ℚ)) (h : s.textureDirty = true) :
    (getTexture e s sc).1.uploadCount = s.uploadCount + 1 := by
  unfold getTexture
  dsimp only
  rw [if_pos (Or.inl h)]
  split <;> simp [render_uploadCount]

theorem setStyle_merges_and_invalidates (e : RenderEnv) (s : SkinState)
    (p : StyleUpdate) (sc : Option (ℚ × ℚ)) :
    (setStyle s p).style.maxLineWidth = p.maxLineWidth.getD s.style.maxLineWidth ∧
    (setStyle s p).style.minWidth = p.minWidth.getD s.style.minWidth ∧
    (setStyle s p).style.strokeWidth = p.strokeWidth.getD s.style.strokeWidth ∧
    (setStyle s p).style.padding = p.padding.getD s.style.padding ∧
    (setStyle s p).style.cornerRadius = p.cornerRadius.getD s.style.cornerRadius ∧
    (setStyle s p).style.tailHeight = p.tailHeight.getD s.style.tailHeight ∧
    (setStyle s p).style.font = p.font.getD s.style.font ∧
    (setStyle s p).style.fontSize = p.fontSize.getD s.style.fontSize ∧
    (setStyle s p).style.fontHeightRatio = p.fontHeightRatio.getD s.style.fontHeightRatio ∧
    (setStyle s p).style.lineHeight = p.lineHeight.getD s.style.lineHeight ∧
    (setStyle s p).style.bubbleFill = p.bubbleFill.getD s.style.bubbleFill ∧
    (setStyle s p).style.bubbleStroke = p.bubbleStroke.getD s.style.bubbleStroke ∧
    (setStyle s p).style.textFill = p.textFill.getD s.style.textFill ∧
    (setStyle s p).mpCache = [] ∧
    (setStyle s p).canvasFont = fontString (setStyle s p).style ∧
    (setStyle s p).textDirty = true ∧
    (setStyle s p).textureDirty = true ∧
    (getTexture e (setStyle (getTexture e s sc).1 p) sc).1.renderCount =
      (setStyle (getTexture e s sc).1 p).renderCount + 1 ∧
    (getTexture e (setStyle (getTexture e s sc).1 p) sc).1.uploadCount =
      (setStyle (getTexture e s sc).1 p).uploadCount + 1 := by
  refine ⟨rfl, rfl, rfl, rfl, rfl, rfl, rfl, rfl, rfl, rfl, rfl, rfl, rfl,
    rfl, rfl, rfl, rfl, ?_, ?_⟩
  · exact getTexture_dirty_render e (setStyle (getTexture e s sc).1 p) sc rfl
  · exact getTexture_dirty_upload e (setStyle (getTexture e s sc).1 p) sc rfl

end TextBubble

namespace TextBubble

lemma reflowLoop_fst (e : RenderEnv) (font : String) (ls : List String)
    (a : ℚ) (cache : List (String × ℚ)) :
    (reflowLoop e font a cache ls).1 =
      (measuredWidths e font cache ls).foldl max a := by
  induction ls generalizing a cache with
  | nil => rfl
  | cons l ls ih => simp [reflowLoop, measuredWidths, ih]

lemma foldl_max_ub (L : ℚ) (ws : List ℚ) (hub : ∀ w ∈ ws, w ≤ L) :
    ws.foldl max L = L := by
  induction ws with
  | nil => rfl
  | cons w ws ih =>
    rw [List.foldl_cons, max_eq_left (hub w (List.mem_cons_self w ws))]
    exact ih fun x hx => hub x (List.mem_cons_of_mem w hx)

lemma foldl_max_eq (a L : ℚ) (ws : List ℚ) (hmem : L ∈ ws)
    (hub : ∀ w ∈ ws, w ≤ L) (ha : a ≤ L) : ws.foldl max a = L := by
  induction ws generalizing a with
  | nil => cases hmem
  | cons w ws ih =>
    rw [List.foldl_cons]
    rcases List.mem_cons.1 hmem with h | h
    · subst h
      rw [max_eq_right ha]
      exact foldl_max_ub L ws fun x hx => hub x (List.mem_cons_of_mem L hx)
    · exact ih (max a w) h (fun x hx => hub x (List.mem_cons_of_mem w hx))
        (max_le ha (hub w (List.mem_cons_self w ws)))

/-- C3: after a layout recomputation the padded text area is the maximum
measured line width (floored at the minimum width) plus twice the padding
in width, and the line height times the wrapped line count plus twice the
padding in height, while the total size adds the stroke width to the width
and the stroke width plus the tail height to the height. `L` is the
maximum of the measured widths of the wrapped lines (the hypotheses state
that it is their `List.maximum` and that it is non-negative, as pixel
widths are). -/
theorem reflow_size_formulas (e : RenderEnv) (s : SkinState) (L : ℚ)
    (hmax : (measuredWidths e s.canvasFont s.mpCache
        (e.wrapText s.style.maxLineWidth s.text)).maximum = (L : WithBot ℚ))
    (h0 : 0 ≤ L) :
    (reflowLines e s).textAreaWidth =
      max L s.style.minWidth + s.style.padding * 2 ∧
    (reflowLines e s).textAreaHeight =
      s.style.lineHeight * ((e.wrapText s.style.maxLineWidth s.text).length : ℚ) +
        s.style.padding * 2 ∧
    (reflowLines e s).lines = e.wrapText s.style.maxLineWidth s.text ∧
    (reflowLines e s).size0 =
      (reflowLines e s).textAreaWidth + s.style.strokeWidth ∧
    (reflowLines e s).size1 =
      (reflowLines e s).textAreaHeight + s.style.strokeWidth +
        s.style.tailHeight := by
  obtain ⟨hmem, hub⟩ := List.maximum_eq_coe_iff.1 hmax
  have hfold : (reflowLoop e s.canvasFont 0 s.mpCache
      (e.wrapText s.style.maxLineWidth s.text)).1 = L := by
    rw [reflowLoop_fst]
    exact foldl_max_eq 0 L _ hmem hub h0
  refine ⟨?_, rfl, rfl, rfl, rfl⟩
  show max (reflowLoop e s.canvasFont 0 s.mpCache
      (e.wrapText s.style.maxLineWidth s.text)).1 s.style.minWidth +
      s.style.padding * 2 = _
  rw [hfold]

end TextBubble

namespace TextBubble

/-- witness for `reflow_size_formulas`: the hypotheses hold and the
conclusion evaluates at the sample environment and the freshly constructed
skin, whose single wrapped empty line measures zero. -/
theorem reflow_size_formulas_witness :
    (measuredWidths sampleEnv initialSkinState.canvasFont
        initialSkinState.mpCache
        (sampleEnv.wrapText initialSkinState.style.maxLineWidth
          initialSkinState.text)).maximum = ((0 : ℚ) : WithBot ℚ) ∧
    (0 : ℚ) ≤ 0 ∧
    ((reflowLines sampleEnv initialSkinState).textAreaWidth =
      max 0 initialSkinState.style.minWidth +
        initialSkinState.style.padding * 2 ∧
    (reflowLines sampleEnv initialSkinState).textAreaHeight =
      initialSkinState.style.lineHeight *
          ((sampleEnv.wrapText initialSkinState.style.maxLineWidth
            initialSkinState.text).length : ℚ) +
        initialSkinState.style.padding * 2 ∧
    (reflowLines sampleEnv initialSkinState).lines =
      sampleEnv.wrapText initialSkinState.style.maxLineWidth
        initialSkinState.text ∧
    (reflowLines sampleEnv initialSkinState).size0 =
      (reflowLines sampleEnv initialSkinState).textAreaWidth +
        initialSkinState.style.strokeWidth ∧
    (reflowLines sampleEnv initialSkinState).size1 =
      (reflowLines sampleEnv initialSkinState).textAreaHeight +
        initialSkinState.style.strokeWidth +
        initialSkinState.style.tailHeight) :=
  ⟨by decide, by decide,
    reflow_size_formulas sampleEnv initialSkinState 0 (by decide) (by decide)⟩

end TextBubble

namespace TextBubble

lemma stroke_not_mem_tailCmds (bt : String) :
    CanvasCmd.stroke ∉ tailCmds bt := by
  unfold tailCmds
  split <;> decide

lemma fill_not_mem_tailCmds (bt : String) :
    CanvasCmd.fill ∉ tailCmds bt := by
  unfold tailCmds
  split <;> decide

lemma stroke_not_mem_textCmds (st : BubbleStyle) (lines : List String) :
    CanvasCmd.stroke ∉ textCmds st lines := by
  simp [textCmds]

lemma fill_not_mem_textCmds (st : BubbleStyle) (lines : List String) :
    CanvasCmd.fill ∉ textCmds st lines := by
  simp [textCmds]

lemma renderCmds_stroke_fill (st : BubbleStyle) (pw ph : ℚ) (pl : Bool)
    (bt : String) (lines : List String) (cw ch : ℤ) (sc : ℚ) :
    ∃ p q, renderCmds st pw ph pl bt lines cw ch sc =
        p ++ CanvasCmd.setFillStyle st.bubbleFill ::
          CanvasCmd.setStrokeStyle st.bubbleStroke ::
          CanvasCmd.setLineWidth st.strokeWidth ::
          CanvasCmd.stroke :: CanvasCmd.fill :: q ∧
      CanvasCmd.stroke ∉ p ∧ CanvasCmd.fill ∉ p ∧
      CanvasCmd.stroke ∉ q ∧ CanvasCmd.fill ∉ q := by
  refine ⟨[CanvasCmd.setTransform 1 0 0 1 0 0,
      CanvasCmd.clearRect 0 0 (cw : ℚ) (ch : ℚ),
      CanvasCmd.scale sc sc,
      CanvasCmd.translate (st.strokeWidth * (1/2)) (st.strokeWidth * (1/2)),
      CanvasCmd.save] ++
    (if pl then [CanvasCmd.scale (-1) 1, CanvasCmd.translate (-pw) 0]
      else []) ++
    [CanvasCmd.beginPath,
      CanvasCmd.moveTo st.cornerRadius ph,
      CanvasCmd.arcTo 0 ph 0 (ph - st.cornerRadius) st.cornerRadius,
      CanvasCmd.arcTo 0 0 pw 0 st.cornerRadius,
      CanvasCmd.arcTo pw 0 pw ph st.cornerRadius,
      CanvasCmd.arcTo pw ph (pw - st.cornerRadius) ph st.cornerRadius,
      CanvasCmd.save,
      CanvasCmd.translate (pw - st.cornerRadius) ph] ++
    tailCmds bt ++ [CanvasCmd.restore],
    [CanvasCmd.restore, CanvasCmd.setFillStyle st.textFill] ++
      textCmds st lines, ?_, ?_, ?_, ?_, ?_⟩
  · simp [renderCmds]
  · cases pl <;>
      simp [List.mem_append, stroke_not_mem_tailCmds]
  · cases pl <;>
      simp [List.mem_append, fill_not_mem_tailCmds]
  · simp [List.mem_append, stroke_not_mem_textCmds]
  · simp [List.mem_append, fill_not_mem_textCmds]

/-- C7 (amended): in the rasterization, after the body-and-tail path is
built and the fill style, stroke style and line width are configured from
the bubble style, the path is stroked first and then filled — the stroke
drawing command occurs immediately before the fill drawing command, and
each occurs exactly once (it is the stroke that is drawn under the fill,
not the other way around). -/
theorem render_stroke_before_fill (e : RenderEnv) (s : SkinState)
    (scale : ℚ) :
    ∃ p q, (renderTextBubble e s scale).lastRenderCmds =
        p ++ CanvasCmd.setFillStyle s.style.bubbleFill ::
          CanvasCmd.setStrokeStyle s.style.bubbleStroke ::
          CanvasCmd.setLineWidth s.style.strokeWidth ::
          CanvasCmd.stroke :: CanvasCmd.fill :: q ∧
      CanvasCmd.stroke ∉ p ∧ CanvasCmd.fill ∉ p ∧
      CanvasCmd.stroke ∉ q ∧ CanvasCmd.fill ∉ q := by
  have hstyle : (if s.textDirty then reflowLines e s else s).style = s.style := by
    cases h : s.textDirty <;> simp [reflow_style]
  have hcmds : (renderTextBubble e s scale).lastRenderCmds =
      renderCmds s.style
        (if s.textDirty then reflowLines e s else s).textAreaWidth
        (if s.textDirty then reflowLines e s else s).textAreaHeight
        (if s.textDirty then reflowLines e s else s).pointsLeft
        (if s.textDirty then reflowLines e s else s).bubbleType
        (if s.textDirty then reflowLines e s else s).lines
        ⌈(if s.textDirty then reflowLines e s else s).size0 * scale⌉
        ⌈(if s.textDirty then reflowLines e s else s).size1 * scale⌉
        scale := by
    rw [← hstyle]
    rfl
  rw [hcmds]
  exact renderCmds_stroke_fill s.style _ _ _ _ _ _ _ scale

/-- C7 (counterexample): at a freshly constructed skin rendered at scale 1
in the sample environment, the stroke command and the fill command each
occur exactly once and the fill does NOT precede the stroke — the fill's
index is strictly after the stroke's — refuting the claim that the fill
drawing operation occurs before the stroke drawing operation. -/
theorem fill_before_stroke_refuted :
    (renderTextBubble sampleEnv initialSkinState 1).lastRenderCmds.count
        CanvasCmd.fill = 1 ∧
    (renderTextBubble sampleEnv initialSkinState 1).lastRenderCmds.count
        CanvasCmd.stroke = 1 ∧
    (renderTextBubble sampleEnv initialSkinState 1).lastRenderCmds.indexOf
        CanvasCmd.stroke <
      (renderTextBubble sampleEnv initialSkinState 1).lastRenderCmds.indexOf
        CanvasCmd.fill ∧
    ¬ ((renderTextBubble sampleEnv initialSkinState 1).lastRenderCmds.indexOf
        CanvasCmd.fill <
      (renderTextBubble sampleEnv initialSkinState 1).lastRenderCmds.indexOf
        CanvasCmd.stroke) := by
  decide

end TextBubble
